import Mathlib

/-!
Shallow embedding of the ADXL345 accelerometer driver
(`src/lib/python3/odcsensor/movement.py`) and verification of its
specification.

Modelling conventions:

* Python exceptions are modelled by the inductive type `PyErr`; a method
  that may raise returns `Except PyErr _`, or, for methods that mutate the
  driver object, `AdxlState × Except PyErr Unit` (the returned state is the
  object state at the moment the method returns or raises, so partial
  mutation before a raise is observable).
* Python numbers appearing in the driver are exact in this embedding:
  every float the driver computes (`2*2**(c+1)/2**13`, `3200/2**level`,
  margins, decoded samples) is a dyadic rational on which IEEE-754 double
  arithmetic is exact, so `ℚ` is a faithful model; `int(x)` is truncation
  toward zero (`pyInt`); Python's arbitrary-precision bitwise operators on
  `int` are `Int.land`/`Int.lor`/`Int.lnot`/`Int.xor` (two's complement).
* The SPI transport plus attached chip is environment, not source code; it
  is abstracted as a `Transport` record (the object's `from_address` /
  `to_address` methods, i.e. Python's dynamic dispatch).  `idealTp` models
  a well-behaved bus (reads return the addressed register bytes, writes
  store them); `i2cTp` models the `Adxl345I2C` subclass, which defines
  neither method, so both lookups raise `AttributeError`.
-/

/-- Python exceptions raised by the driver, with the diagnostic payload the
source embeds in the exception message. -/
inductive PyErr where
  | typeError
  | valueError
  | valueErrorProtocol (addr : ℕ) (received : List ℕ)
  | valueErrorCalibration (x y z : ℚ)
  | attributeError (missing : String)
  | indexError
  deriving DecidableEq

/-- Python values passed to the configuration setters: integers, booleans
(which are `int` instances in Python), and representative non-integer
values (floats, strings). -/
inductive PyVal where
  | int (n : ℤ)
  | bool (b : Bool)
  | float (q : ℚ)
  | str (s : String)
  deriving DecidableEq

/-- Python `isinstance(v, int)`: true for `int` and for `bool` (a subclass
of `int`). -/
def PyVal.isInt : PyVal → Bool
  | .int _ => true
  | .bool _ => true
  | _ => false

/-- Numeric value of a Python `int` instance (`True == 1`, `False == 0`). -/
def PyVal.intValue : PyVal → ℤ
  | .int n => n
  | .bool b => if b then 1 else 0
  | _ => 0

/-- Python `int(q)` on an exact rational: truncation toward zero. -/
def pyInt (q : ℚ) : ℤ := q.num / (q.den : ℤ)

/-- Python `round(q)` on an exact rational: round half to even. -/
def pyRound (q : ℚ) : ℤ :=
  let f := Int.floor q
  if q - f < 1 / 2 then f
  else if 1 / 2 < q - f then f + 1
  else if f % 2 = 0 then f else f + 1

/-- Transport capability of the driver object: the `from_address` /
`to_address` methods resolved by Python's attribute lookup.  They act on
the chip's register file (modelled as `ℕ → ℤ`). -/
structure Transport where
  from_address : ℕ → ℕ → (ℕ → ℤ) → Except PyErr (List ℤ)
  to_address : ℕ → List ℤ → (ℕ → ℤ) → Except PyErr (ℕ → ℤ)

/-- Driver object state: the attributes `Adxl345.__init__` and the setters
assign, plus the chip register file reachable through the transport. -/
structure AdxlState where
  sensitivity_range : ℕ
  data_rate_code : ℤ
  data_rate : ℕ
  regs : ℕ → ℤ

namespace Adxl345

def ADDR_DEV_ID : ℕ := 0x00

def ADDR_RATE_BW : ℕ := 0x2C

def ADDR_DATA_FORMAT : ℕ := 0x31

def ADDR_DATA_X_0 : ℕ := 0x32

def ADDR_OFFSET_X : ℕ := 0x1E

def ADDR_OFFSET_Y : ℕ := 0x1F

def ADDR_OFFSET_Z : ℕ := 0x20

def ADDR_POWER_CTL : ℕ := 0x2D

/-- `Adxl345.decode(self, lsb, msb)`: combine two sample bytes and scale.
`sensitivity_range` is the stored 2-bit range code (`self.sensitivity_range`).
Source: `accl = (msb << 8) | lsb`;
`adjust = 2 * (2**(self.sensitivity_range + 1)) / (2**13)`;
`(accl - (1 << 16)) * adjust if accl & (1 << 15) else accl * adjust`. -/
def decode (sensitivity_range lsb msb : ℕ) : ℚ :=
  let accl : ℕ := (msb <<< 8) ||| lsb
  let adjust : ℚ := 2 * (2 ^ (sensitivity_range + 1)) / (2 ^ 13)
  if accl &&& (1 <<< 15) ≠ 0 then ((accl : ℚ) - ((1 <<< 16 : ℕ) : ℚ)) * adjust
  else (accl : ℚ) * adjust

/-- `Adxl345.FACTOR_HIGH_RES`: referenced by `set_offset` but never defined
anywhere in the module, so evaluating the attribute raises
`AttributeError`. -/
def FACTOR_HIGH_RES : Except PyErr ℚ := .error (.attributeError "FACTOR_HIGH_RES")

/-- `Adxl345.set_sensitivity_range(self, sensitivity_range)`.  Type and
membership checks, then `self.sensitivity_range = int(log2(r)) - 1`
(exact for r in the accepted set, modelled by `Nat.log2`), then a
read-modify-write of the DATA_FORMAT register:
`data = self.from_address(DATA_FORMAT, 1)[0] & ~0x0F | code | 0x08`. -/
def set_sensitivity_range (tp : Transport) (v : PyVal) (st : AdxlState) :
    AdxlState × Except PyErr Unit :=
  if ¬ v.isInt then (st, .error .typeError)
  else if v.intValue ≠ 2 ∧ v.intValue ≠ 4 ∧ v.intValue ≠ 8 ∧ v.intValue ≠ 16 then
    (st, .error .valueError)
  else
    let code := Nat.log2 v.intValue.toNat - 1
    let st1 := { st with sensitivity_range := code }
    match tp.from_address ADDR_DATA_FORMAT 1 st1.regs with
    | .error e => (st1, .error e)
    | .ok [] => (st1, .error .indexError)
    | .ok (d0 :: _) =>
      let data := Int.lor (Int.lor (Int.land d0 (Int.lnot 0x0F)) (code : ℤ)) 0x08
      match tp.to_address ADDR_DATA_FORMAT [data] st1.regs with
      | .error e => (st1, .error e)
      | .ok regs2 => ({ st1 with regs := regs2 }, .ok ())

/-- `Adxl345.set_data_rate_level(self, data_rate_level)`.  Type check, range
check `0 <= level <= 16` (the code accepts 0 although the error message
says otherwise), then `self.data_rate_code = 0b1111 - level`,
`self.data_rate = int(3200/(2**level))` (the float quotient is an exact
dyadic rational, so `int` truncation is natural-number division), then a
write of the code to the RATE_BW register. -/
def set_data_rate_level (tp : Transport) (v : PyVal) (st : AdxlState) :
    AdxlState × Except PyErr Unit :=
  if ¬ v.isInt then (st, .error .typeError)
  else if v.intValue < 0 ∨ 16 < v.intValue then (st, .error .valueError)
  else
    let code : ℤ := 0x0F - v.intValue
    let rate : ℕ := 3200 / 2 ^ v.intValue.toNat
    let st1 := { st with data_rate_code := code, data_rate := rate }
    match tp.to_address ADDR_RATE_BW [code] st1.regs with
    | .error e => (st1, .error e)
    | .ok regs2 => ({ st1 with regs := regs2 }, .ok ())

/-- `Adxl345.set_offset(self, x, y, z)`: for each axis register in X, Y, Z
order, write `int(v / Adxl345.FACTOR_HIGH_RES / 4) & 0xFF`.  The first
loop iteration evaluates the undeclared class attribute `FACTOR_HIGH_RES`
and therefore raises `AttributeError` before any bus write. -/
def set_offset (tp : Transport) (x y z : ℚ) (st : AdxlState) :
    AdxlState × Except PyErr Unit :=
  match FACTOR_HIGH_RES with
  | .error e => (st, .error e)
  | .ok factor =>
    let enc : ℚ → ℤ := fun v => Int.land (pyInt (v / factor / 4)) 0xFF
    match tp.to_address ADDR_OFFSET_X [enc x] st.regs with
    | .error e => (st, .error e)
    | .ok r1 =>
      match tp.to_address ADDR_OFFSET_Y [enc y] r1 with
      | .error e => ({ st with regs := r1 }, .error e)
      | .ok r2 =>
        match tp.to_address ADDR_OFFSET_Z [enc z] r2 with
        | .error e => ({ st with regs := r2 }, .error e)
        | .ok r3 => ({ st with regs := r3 }, .ok ())

/-- `Adxl345.get_acceleration(self, axis=0b111)`: one 6-byte read starting
at `ADDR_DATA_X_0`, then
`[decode(data[idx], data[idx+1]) for idx in range(0, 6, 2) if axis & (1 << (idx//2))]`.
Transport payload entries are bytes; `List.getD` stands for Python list
indexing, in bounds for any response of the requested length. -/
def get_acceleration (tp : Transport) (axis : ℕ) (st : AdxlState) :
    Except PyErr (List ℚ) :=
  let byte_ctr : ℕ := 6
  match tp.from_address ADDR_DATA_X_0 byte_ctr st.regs with
  | .error e => .error e
  | .ok data =>
    .ok (((List.range' 0 (byte_ctr / 2) 2).filter fun idx =>
        (axis &&& (1 <<< (idx / 2))) != 0).map fun idx =>
      decode st.sensitivity_range (data.getD idx 0).toNat (data.getD (idx + 1) 0).toNat)

/-- `Adxl345.calibrate(self, margin=0.1)`: zero the offsets, sample all
three axes, check every reading is within `margin` of 0 or of ±1, check
the exclusive-or of the rounded readings is nonzero, then write the
corrections `round(v) - v`.  The very first step, `set_offset(0, 0, 0)`,
raises `AttributeError` (undeclared `FACTOR_HIGH_RES`). -/
def calibrate (tp : Transport) (margin : ℚ) (st : AdxlState) :
    AdxlState × Except PyErr Unit :=
  match set_offset tp 0 0 0 st with
  | (st1, .error e) => (st1, .error e)
  | (st1, .ok _) =>
    match get_acceleration tp 0b111 st1 with
    | .error e => (st1, .error e)
    | .ok accel =>
      match accel with
      | x :: y :: z :: _ =>
        let okv : ℚ → Bool := fun v =>
          decide ((0 - margin < |v| ∧ |v| < 0 + margin) ∨ (1 - margin < |v| ∧ |v| < 1 + margin))
        if ¬ (okv x && okv y && okv z) then (st1, .error (.valueErrorCalibration x y z))
        else if Int.xor (Int.xor (pyRound x) (pyRound y)) (pyRound z) = 0 then
          (st1, .error (.valueErrorCalibration x y z))
        else
          set_offset tp ((pyRound x : ℚ) - x) ((pyRound y : ℚ) - y) ((pyRound z : ℚ) - z) st1
      | _ => (st1, .error .indexError)

/-- `Adxl345.__init__(self, sensitivity_range=16, data_rate_level=0)`:
calls the two configuration setters in order. -/
def init (tp : Transport) (sensitivity_range data_rate_level : PyVal) (st : AdxlState) :
    AdxlState × Except PyErr Unit :=
  match set_sensitivity_range tp sensitivity_range st with
  | (st1, .error e) => (st1, .error e)
  | (st1, .ok _) => set_data_rate_level tp data_rate_level st1

end Adxl345

namespace Adxl345Spi

def BITMASK_READ : ℕ := 0x80

def BITMASK_MULTI : ℕ := 0x40

/-- `ADDR_SELECT_MASK` is declared in the source but never applied to any
address. -/
def ADDR_SELECT_MASK : ℕ := 0x3F

/-- Header byte of a read frame, from `Adxl345Spi.from_address`:
`addr | BITMASK_READ | (BITMASK_MULTI * (byte_count > 1))`. -/
def from_address_header (addr byte_count : ℕ) : ℕ :=
  addr ||| BITMASK_READ ||| (BITMASK_MULTI * (if 1 < byte_count then 1 else 0))

/-- Full outgoing read frame: header byte followed by `byte_count` filler
bytes `0xFF`. -/
def from_address_msg (addr byte_count : ℕ) : List ℕ :=
  from_address_header addr byte_count :: List.replicate byte_count 0xFF

/-- Response validation and payload extraction of
`Adxl345Spi.from_address`, given the transport's raw reply `(count, data)`
as returned by `pi.spi_xfer`: raise `ValueError` carrying `addr` and the
received bytes unless `count == byte_count + 1` and `len(data) == count`,
else return `data[1:]`. -/
def from_address (addr byte_count : ℕ) (count : ℕ) (data : List ℕ) :
    Except PyErr (List ℕ) :=
  if count ≠ byte_count + 1 ∨ data.length ≠ count then
    .error (.valueErrorProtocol addr data)
  else
    .ok (data.drop 1)

/-- Header byte of a write frame, from `Adxl345Spi.to_address` (after the
scalar-to-list wrapping of `values`):
`addr | (BITMASK_MULTI * (len(data_values) > 1))`. -/
def to_address_header (addr : ℕ) (data_values : List ℤ) : ℕ :=
  addr ||| (BITMASK_MULTI * (if 1 < data_values.length then 1 else 0))

/-- Full outgoing write frame: header byte followed by the payload. -/
def to_address_msg (addr : ℕ) (data_values : List ℤ) : List ℤ :=
  (to_address_header addr data_values : ℤ) :: data_values

end Adxl345Spi

/-- Environment model of a well-behaved SPI transport and chip: a read of
`n` bytes at `addr` returns the `n` registers starting at `addr` (the echo
byte and length validation of `Adxl345Spi.from_address` succeed), and a
write stores its payload at consecutive addresses. -/
def writeRegs (regs : ℕ → ℤ) (addr : ℕ) (values : List ℤ) : ℕ → ℤ :=
  match values with
  | [] => regs
  | v :: vs => writeRegs (fun a => if a = addr then v else regs a) (addr + 1) vs

/-- Well-behaved transport (see `writeRegs`): the dispatch environment of a
correctly wired `Adxl345Spi` object. -/
def idealTp : Transport :=
  { from_address := fun addr n regs => .ok ((List.range n).map fun i => regs (addr + i))
    to_address := fun addr values regs => .ok (writeRegs regs addr values) }

/-- Dispatch environment of an `Adxl345I2C` object: the subclass body is
`pass`, so neither `from_address` nor `to_address` exists and every lookup
raises `AttributeError`. -/
def i2cTp : Transport :=
  { from_address := fun _ _ _ => .error (.attributeError "from_address")
    to_address := fun _ _ _ => .error (.attributeError "to_address") }

/-- `Adxl345I2C()` constructor: the inherited `Adxl345.__init__` with the
default arguments, running against the I2C dispatch environment. -/
def adxl345I2C_init (st : AdxlState) : AdxlState × Except PyErr Unit :=
  Adxl345.init i2cTp (.int 16) (.int 0) st

/-- Sample driver state used to exhibit concrete runs: a freshly
constructed device (range 16 g, rate level 0) over a zeroed register
file. -/
def st0 : AdxlState :=
  { sensitivity_range := 3, data_rate_code := 15, data_rate := 3200, regs := fun _ => 0 }

/-- Second sample driver state, with a distinct register file. -/
def stAlt : AdxlState :=
  { sensitivity_range := 0, data_rate_code := 15, data_rate := 3200, regs := fun _ => 1 }

/-- Helper for stating that a calibration run raised the calibration
`ValueError` (the spec's `CalibrationError`). -/
def raisesCalibrationError (r : AdxlState × Except PyErr Unit) : Bool :=
  match r.2 with
  | .error (.valueErrorCalibration _ _ _) => true
  | _ => false

/-- C10: constructing the `Adxl345I2C` variant always raises an
attribute-lookup error: the inherited constructor calls
`set_sensitivity_range(16)`, whose register read-modify-write looks up
`self.from_address`, which the variant does not define. -/
theorem adxl345I2C_init_raises_attributeError (st : AdxlState) :
    (adxl345I2C_init st).2 = .error (.attributeError "from_address") := rfl

/-- C1: evaluating `calibrate()` at the claim's scenario (default margin
0.1) shows the run never reaches the synthetic readings
(x=0.02, y=−0.01, z=0.99): the initial `set_offset(0,0,0)` evaluates the
undeclared class attribute `FACTOR_HIGH_RES` and raises `AttributeError`,
so no offsets are written and the call does not succeed. -/
theorem calibrate_default_margin_raises_attributeError :
    (Adxl345.calibrate idealTp (1 / 10) st0).2 =
      .error (.attributeError "FACTOR_HIGH_RES") := rfl

/-- C2 (counterexample): with margin 0.1 on a concrete device whose
sampled readings would violate the calibration preconditions, `calibrate`
does not fail with the calibration `ValueError` the claim requires; it
fails with `AttributeError` before the readings are even sampled. -/
theorem calibrate_invalid_readings_not_calibrationError :
    raisesCalibrationError (Adxl345.calibrate idealTp (1 / 10) stAlt) = false ∧
      (Adxl345.calibrate idealTp (1 / 10) stAlt).2 =
        .error (.attributeError "FACTOR_HIGH_RES") := ⟨rfl, rfl⟩

/-- C2 (amended): for every transport, every margin and every device state
— hence for every sampled reading triple, which is never consulted —
`calibrate(margin)` raises `AttributeError` from the undeclared
`FACTOR_HIGH_RES` during the initial offset zeroing, before the
precondition checks, and leaves the device state unchanged. -/
theorem calibrate_always_raises_attributeError (tp : Transport) (margin : ℚ)
    (st : AdxlState) :
    Adxl345.calibrate tp margin st = (st, .error (.attributeError "FACTOR_HIGH_RES")) := rfl

/-- C4: a read transaction validates the transport reply: when the reply
length differs from `byte_count + 1` it fails with the protocol
`ValueError` carrying the requested address and the received bytes, and
otherwise it discards the first reply byte and returns exactly the
remaining `byte_count` payload bytes. -/
theorem from_address_length_validation (addr byte_count count : ℕ) (data : List ℕ)
    (hcount : count = data.length) :
    (data.length ≠ byte_count + 1 →
      Adxl345Spi.from_address addr byte_count count data =
        .error (.valueErrorProtocol addr data)) ∧
    (data.length = byte_count + 1 →
      Adxl345Spi.from_address addr byte_count count data = .ok (data.drop 1) ∧
      (data.drop 1).length = byte_count) := by
  subst hcount
  constructor
  · intro h
    simp [Adxl345Spi.from_address, h]
  · intro h
    constructor
    · simp [Adxl345Spi.from_address, h]
    · simp [h]

/-- C4 (witness): the spec's scenario: a transport reply of 5 bytes when 7
were expected (a 6-byte read) fails with the protocol error referencing
the requested address and the received bytes. -/
theorem from_address_length_validation_witness :
    Adxl345Spi.from_address 50 6 5 [9, 9, 9, 9, 9] =
      .error (.valueErrorProtocol 50 [9, 9, 9, 9, 9]) :=
  (from_address_length_validation 50 6 5 [9, 9, 9, 9, 9] rfl).1 (by decide)

/-- C6: `set_sensitivity_range(v)` for any `v` outside `{2,4,8,16}` — wrong
type (non-integer) or out-of-set integer — fails with the `InvalidArgument`
errors (`TypeError` / `ValueError`) before touching anything: the returned
state is exactly the input state, so the stored range code and the
DATA_FORMAT register are unchanged, for every transport. -/
theorem set_sensitivity_range_rejects_invalid :
    (∀ (tp : Transport) (st : AdxlState) (v : PyVal), v.isInt = false →
      Adxl345.set_sensitivity_range tp v st = (st, .error .typeError)) ∧
    (∀ (tp : Transport) (st : AdxlState) (v : PyVal), v.isInt = true →
      v.intValue ≠ 2 → v.intValue ≠ 4 → v.intValue ≠ 8 → v.intValue ≠ 16 →
      Adxl345.set_sensitivity_range tp v st = (st, .error .valueError)) := by
  constructor
  · intro tp st v h
    simp [Adxl345.set_sensitivity_range, h]
  · intro tp st v h h2 h4 h8 h16
    simp [Adxl345.set_sensitivity_range, h, h2, h4, h8, h16]

/-- C6 (witness): a non-integer argument and the out-of-set integer 5 are
both rejected on a concrete already-configured device, leaving it
unchanged. -/
theorem set_sensitivity_range_rejects_invalid_witness :
    Adxl345.set_sensitivity_range idealTp (.float (1 / 2)) st0 = (st0, .error .typeError) ∧
      Adxl345.set_sensitivity_range idealTp (.int 5) st0 = (st0, .error .valueError) :=
  ⟨set_sensitivity_range_rejects_invalid.1 idealTp st0 (.float (1 / 2)) rfl,
    set_sensitivity_range_rejects_invalid.2 idealTp st0 (.int 5) rfl
      (by decide) (by decide) (by decide) (by decide)⟩

/-- C7: `set_data_rate_level` accepts exactly the integers in `[0, 16]`:
every accepted level stores `data_rate_code = 15 − level` (so code + level
= 15) and writes that code to the RATE_BW register; integers outside the
range fail with `ValueError` and non-integers with `TypeError`, for every
transport, leaving the state unchanged. -/
theorem set_data_rate_level_domain_and_code :
    (∀ (st : AdxlState) (n : ℤ), 0 ≤ n → n ≤ 16 →
      (Adxl345.set_data_rate_level idealTp (.int n) st).2 = .ok () ∧
      (Adxl345.set_data_rate_level idealTp (.int n) st).1.data_rate_code + n = 15 ∧
      (Adxl345.set_data_rate_level idealTp (.int n) st).1.regs Adxl345.ADDR_RATE_BW = 15 - n) ∧
    (∀ (tp : Transport) (st : AdxlState) (n : ℤ), n < 0 ∨ 16 < n →
      Adxl345.set_data_rate_level tp (.int n) st = (st, .error .valueError)) ∧
    (∀ (tp : Transport) (st : AdxlState) (v : PyVal), v.isInt = false →
      Adxl345.set_data_rate_level tp v st = (st, .error .typeError)) := by
  refine ⟨?_, ?_, ?_⟩
  · intro st n h0 h16
    have hout : ¬ ((n : ℤ) < 0 ∨ 16 < n) := by omega
    simp [Adxl345.set_data_rate_level, PyVal.isInt, PyVal.intValue, hout, idealTp,
      writeRegs, Adxl345.ADDR_RATE_BW]
  · intro tp st n h
    simp [Adxl345.set_data_rate_level, PyVal.isInt, PyVal.intValue, h]
  · intro tp st v h
    simp [Adxl345.set_data_rate_level, h]

/-- C7 (witness): level 5 is accepted with code 10 written to RATE_BW,
while level 17 and a non-integer argument are rejected unchanged. -/
theorem set_data_rate_level_domain_and_code_witness :
    ((Adxl345.set_data_rate_level idealTp (.int 5) st0).2 = .ok () ∧
      (Adxl345.set_data_rate_level idealTp (.int 5) st0).1.data_rate_code + 5 = 15 ∧
      (Adxl345.set_data_rate_level idealTp (.int 5) st0).1.regs Adxl345.ADDR_RATE_BW = 15 - 5) ∧
    Adxl345.set_data_rate_level idealTp (.int 17) st0 = (st0, .error .valueError) ∧
    Adxl345.set_data_rate_level idealTp (.str "fast") st0 = (st0, .error .typeError) :=
  ⟨set_data_rate_level_domain_and_code.1 st0 5 (by decide) (by decide),
    set_data_rate_level_domain_and_code.2.1 idealTp st0 17 (Or.inr (by decide)),
    set_data_rate_level_domain_and_code.2.2 idealTp st0 (.str "fast") rfl⟩

/-- C8 (counterexample): at level 8 the call succeeds but the cached rate
is the truncated integer 12, not 3200 / 2⁸ = 12.5 Hz. -/
theorem set_data_rate_level8_truncates :
    (Adxl345.set_data_rate_level idealTp (.int 8) st0).2 = .ok () ∧
    (Adxl345.set_data_rate_level idealTp (.int 8) st0).1.data_rate = 12 ∧
    ((12 : ℚ) ≠ 3200 / 2 ^ (8 : ℕ)) := by
  refine ⟨rfl, rfl, by norm_num⟩

/-- C8 (amended): for every valid level in `[0, 16]`, after a successful
`set_data_rate_level(level)` the cached output rate is the integer
truncation `⌊3200 / 2^level⌋` Hz (natural-number division); it equals
3200 / 2^level exactly only when `2^level` divides 3200. -/
theorem set_data_rate_level_cached_rate_floor (st : AdxlState) (n : ℤ)
    (h0 : 0 ≤ n) (h16 : n ≤ 16) :
    (Adxl345.set_data_rate_level idealTp (.int n) st).2 = .ok () ∧
    (Adxl345.set_data_rate_level idealTp (.int n) st).1.data_rate = 3200 / 2 ^ n.toNat := by
  have hout : ¬ ((n : ℤ) < 0 ∨ 16 < n) := by omega
  simp [Adxl345.set_data_rate_level, PyVal.isInt, PyVal.intValue, hout, idealTp, writeRegs]

/-- C8 (witness): level 4 is accepted and caches ⌊3200 / 2⁴⌋ = 200 Hz. -/
theorem set_data_rate_level_cached_rate_floor_witness :
    (Adxl345.set_data_rate_level idealTp (.int 4) st0).2 = .ok () ∧
    (Adxl345.set_data_rate_level idealTp (.int 4) st0).1.data_rate = 3200 / 2 ^ (4 : ℤ).toNat :=
  set_data_rate_level_cached_rate_floor st0 4 (by decide) (by decide)

/-- Byte-pair combination: shifting the high byte and or-ing the low byte
is the arithmetic combination `256 * msb + lsb` when the low byte is in
range. -/
theorem shiftLeft_lor_eq (msb lsb : ℕ) (h : lsb < 256) :
    (msb <<< 8) ||| lsb = 256 * msb + lsb := by
  apply Nat.eq_of_testBit_eq
  intro i
  rw [Nat.testBit_or]
  have hsplit : 256 * msb + lsb = 2 ^ 8 * msb + lsb := by norm_num
  rcases Nat.lt_or_ge i 8 with hi | hi
  · have h1 : Nat.testBit (msb <<< 8) i = false := by
      rw [Nat.testBit_shiftLeft]
      simp [Nat.not_le.mpr hi]
    rw [h1, hsplit, Nat.testBit_mul_pow_two_add msb (show lsb < 2 ^ 8 by norm_num; omega) i]
    simp [hi]
  · have h1 : Nat.testBit (msb <<< 8) i = Nat.testBit msb (i - 8) := by
      rw [Nat.testBit_shiftLeft]
      simp [hi]
    have h2 : Nat.testBit lsb i = false :=
      Nat.testBit_lt_two_pow (lt_of_lt_of_le h (by calc
        (256 : ℕ) = 2 ^ 8 := by norm_num
        _ ≤ 2 ^ i := Nat.pow_le_pow_right (by norm_num) hi))
    rw [h1, h2, hsplit, Nat.testBit_mul_pow_two_add msb (show lsb < 2 ^ 8 by norm_num; omega) i]
    simp [Nat.not_lt.mpr hi]

/-- Sign-bit test: the source's mask test `accl & (1 << 15) != 0` is the
test of bit 15. -/
theorem and_bit15 (accl : ℕ) :
    (accl &&& (1 <<< 15) ≠ 0) ↔ Nat.testBit accl 15 = true := by
  rw [show (1 <<< 15 : ℕ) = 2 ^ 15 from by decide]
  rw [Nat.and_two_pow]
  cases h : Nat.testBit accl 15 <;> simp [h]

/-- C3: for every byte pair and every range code c ∈ {0,1,2,3}, `decode`
combines `raw = 256·high + low`, scales by `s = 2·2^(c+1) / 2^13` and
subtracts 65536 exactly when bit 15 of `raw` is set; in particular at
range code 3 (16 g) the bytes low=0x00, high=0x80 decode to exactly
−128 g. -/
theorem decode_twos_complement_scaling :
    (∀ (c lsb msb : ℕ), c ≤ 3 → lsb < 256 → msb < 256 →
      Adxl345.decode c lsb msb =
        (if Nat.testBit (256 * msb + lsb) 15 then ((256 * msb + lsb : ℕ) : ℚ) - 65536
         else ((256 * msb + lsb : ℕ) : ℚ)) * (2 * 2 ^ (c + 1) / 2 ^ 13)) ∧
    Adxl345.decode 3 0 128 = -128 := by
  constructor
  · intro c lsb msb hc hl hm
    have hraw : (msb <<< 8) ||| lsb = 256 * msb + lsb := shiftLeft_lor_eq msb lsb hl
    have hbit := and_bit15 (256 * msb + lsb)
    simp only [Adxl345.decode, hraw]
    have h65536 : ((1 <<< 16 : ℕ) : ℚ) = 65536 := by norm_num [Nat.shiftLeft_eq]
    cases hb : Nat.testBit (256 * msb + lsb) 15
    · have hz : 256 * msb + lsb &&& 1 <<< 15 = 0 := by
        by_contra hnz
        exact absurd (hbit.mp hnz) (by simp [hb])
      rw [if_neg (fun hcon => hcon hz), if_neg (by simp [hb])]
    · rw [if_pos (hbit.mpr hb), if_pos (by simp [hb]), h65536]
  · have h1 : ((128 : ℕ) <<< 8 ||| 0) = 32768 := by decide
    have h2 : ((32768 : ℕ) &&& 1 <<< 15 ≠ 0) := by decide
    simp only [Adxl345.decode, h1, if_pos h2]
    norm_num [Nat.shiftLeft_eq]

/-- C3 (witness): the general decoding law instantiated at range code 3
with bytes low=0x00, high=0x80. -/
theorem decode_twos_complement_scaling_witness :
    Adxl345.decode 3 0 128 =
      (if Nat.testBit (256 * 128 + 0) 15 then ((256 * 128 + 0 : ℕ) : ℚ) - 65536
       else ((256 * 128 + 0 : ℕ) : ℚ)) * (2 * 2 ^ (3 + 1) / 2 ^ 13) :=
  decode_twos_complement_scaling.1 3 0 128 (by decide) (by decide) (by decide)

/-- C5 (counterexample): the code never applies the 6-bit address mask
(`ADDR_SELECT_MASK` is unused), so for addresses above 0x3F the address
bits leak into the flag positions: a single-byte write to address 0x40
produces a header with bit 6 set although only one byte is transferred,
and a write to address 0x80 produces a header with bit 7 set although the
transaction is not a read. -/
theorem header_unmasked_address_leaks :
    Nat.testBit (Adxl345Spi.to_address_header 64 [0]) 6 = true ∧
    ¬ (1 < ([(0 : ℤ)] : List ℤ).length) ∧
    Nat.testBit (Adxl345Spi.to_address_header 128 [0]) 7 = true := by
  refine ⟨by decide, by decide, by decide⟩

/-- C5 (amended): for every register address within the device's 6-bit
address space (addr ≤ 0x3F), the header byte has bit 7 set iff the
transaction is a read, bit 6 set iff more than one byte is transferred,
and bits 5–0 equal to the address; the code performs no masking, so this
layout holds only on that domain. -/
theorem header_bit_layout_masked (addr : ℕ) (h : addr ≤ 63) :
    (∀ byte_count : ℕ,
      Nat.testBit (Adxl345Spi.from_address_header addr byte_count) 7 = true ∧
      Nat.testBit (Adxl345Spi.from_address_header addr byte_count) 6 = decide (1 < byte_count) ∧
      Adxl345Spi.from_address_header addr byte_count &&& 63 = addr) ∧
    (∀ values : List ℤ,
      Nat.testBit (Adxl345Spi.to_address_header addr values) 7 = false ∧
      Nat.testBit (Adxl345Spi.to_address_header addr values) 6 = decide (1 < values.length) ∧
      Adxl345Spi.to_address_header addr values &&& 63 = addr) := by
  have ha7 : Nat.testBit addr 7 = false :=
    Nat.testBit_lt_two_pow (lt_of_le_of_lt h (by norm_num))
  have ha6 : Nat.testBit addr 6 = false :=
    Nat.testBit_lt_two_pow (lt_of_le_of_lt h (by norm_num))
  have hmask : addr &&& 63 = addr := by
    have h2 := Nat.and_pow_two_sub_one_eq_mod addr 6
    norm_num at h2
    rw [h2, Nat.mod_eq_of_lt (by omega)]
  have t128_7 : Nat.testBit 128 7 = true := by decide
  have t128_6 : Nat.testBit 128 6 = false := by decide
  have t64_7 : Nat.testBit 64 7 = false := by decide
  have t64_6 : Nat.testBit 64 6 = true := by decide
  have m128 : (128 : ℕ) &&& 63 = 0 := by decide
  have m64 : (64 : ℕ) &&& 63 = 0 := by decide
  constructor
  · intro byte_count
    by_cases hbc : 1 < byte_count <;>
      simp [Adxl345Spi.from_address_header, Adxl345Spi.BITMASK_READ, Adxl345Spi.BITMASK_MULTI,
        hbc, Nat.testBit_or, ha7, ha6, t128_7, t128_6, t64_7, t64_6,
        Nat.and_distrib_right, hmask, m128, m64]
  · intro values
    by_cases hv : 1 < values.length <;>
      simp [Adxl345Spi.to_address_header, Adxl345Spi.BITMASK_MULTI,
        hv, Nat.testBit_or, ha7, ha6, t64_7, t64_6,
        Nat.and_distrib_right, hmask, m64]

/-- C5 (witness): the amended layout at the X-data register address 0x32
for a 6-byte read. -/
theorem header_bit_layout_masked_witness :
    Nat.testBit (Adxl345Spi.from_address_header 50 6) 7 = true ∧
    Nat.testBit (Adxl345Spi.from_address_header 50 6) 6 = decide (1 < 6) ∧
    Adxl345Spi.from_address_header 50 6 &&& 63 = 50 :=
  (header_bit_layout_masked 50 (by decide)).1 6

/-- Axis indices selected by a 3-bit axis mask, in ascending order. -/
def specAxes (axis : ℕ) : List ℕ := (List.range 3).filter fun i => axis.testBit i

/-- Number of set bits of a natural number (every set bit of `n` has index
below `n + 1`). -/
def popcount (n : ℕ) : ℕ := ((List.range (n + 1)).filter fun i => n.testBit i).length

/-- C9: for every 3-bit axis mask, `get_acceleration` issues one 6-byte
read at the X-data register (its result is fully determined by the
transport's reply to exactly that request) and returns the decoded byte
pairs of the selected axes in ascending axis order — `popcount mask`
values in total. -/
theorem get_acceleration_mask_selection (tp : Transport) (st : AdxlState) (axis : ℕ)
    (data : List ℤ) (hax : axis < 8)
    (hread : tp.from_address Adxl345.ADDR_DATA_X_0 6 st.regs = .ok data) :
    Adxl345.get_acceleration tp axis st =
      .ok ((specAxes axis).map fun i =>
        Adxl345.decode st.sensitivity_range (data.getD (2 * i) 0).toNat
          (data.getD (2 * i + 1) 0).toNat) ∧
    (specAxes axis).length = popcount axis := by
  constructor
  · simp only [Adxl345.get_acceleration]
    rw [hread, show List.range' 0 (6 / 2) 2 = [0, 2, 4] from by decide]
    interval_cases axis <;>
      simp +decide [specAxes, show List.range 3 = [0, 1, 2] from by decide]
  · interval_cases axis <;> decide

/-- C9 (witness): mask 0b101 against a concrete device selects axes X and
Z: two values, in that order. -/
theorem get_acceleration_mask_selection_witness :
    Adxl345.get_acceleration idealTp 5 st0 =
      .ok ((specAxes 5).map fun i =>
        Adxl345.decode st0.sensitivity_range (([(0 : ℤ), 0, 0, 0, 0, 0]).getD (2 * i) 0).toNat
          (([(0 : ℤ), 0, 0, 0, 0, 0]).getD (2 * i + 1) 0).toNat) ∧
    (specAxes 5).length = popcount 5 :=
  get_acceleration_mask_selection idealTp st0 5 [0, 0, 0, 0, 0, 0] (by decide) rfl
